import Mathlib

/-!
Shallow embedding of the decision core of the portfolio-ai repository:
the thesis, valuation, risk and opportunity-cost engines and the
decision synthesis layer, together with theorems checking the
natural-language specification against this code.

Numeric values are modelled as rationals; pandas series are modelled as
lists of rationals in the source's orientation (newest value first for
financial-statement series, oldest first for daily price history).
-/

namespace PortfolioAI

/-- Python's `round` to the nearest integer, ties to even (banker's
rounding), on exact rationals. -/
def pyRound (q : ℚ) : ℤ :=
  let f := ⌊q⌋
  let r := q - f
  if r < 1/2 then f
  else if r > 1/2 then f + 1
  else if f % 2 = 0 then f else f + 1

/-- Python's `round(x, 1)`: round to one decimal place. -/
def round1 (q : ℚ) : ℚ := (pyRound (q * 10) : ℚ) / 10

/-- Arithmetic mean of a list, used for pandas `rolling(n).mean()`
windows; 0 for the empty list (never reached on the paths used). -/
def listMean (l : List ℚ) : ℚ := l.sum / l.length

/-! ## Thesis engine (src/engines/thesis.py) -/

/-- Embeds `evaluate_trend` (src/engines/thesis.py lines 68-83).
The series is newest-first, matching `iloc[0]` / `iloc[1]`. -/
def evaluate_trend : List ℚ → String
  | latest :: previous :: _ =>
      if latest > previous then "Improving"
      else if latest < previous then "Deteriorating"
      else "Stable"
  | _ => "Unknown"

/-- Intermediate signals feeding the deterioration scoring loop of
`run_thesis_engine` (src/engines/thesis.py lines 135-210).  The trend
fields hold the strings produced by `evaluate_trend` /
`calculate_ratio_trend`; the scalar fields hold the latest-period
values read at lines 176-177 and 199-201. -/
structure ThesisSignals where
  sector : String
  revenueTrend : String
  incomeTrend : String
  marginTrend : String
  roeTrend : String
  equityTrend : String
  latestDebt : ℚ
  latestEquity : ℚ
  hasCoverageData : Bool
  opInc : ℚ
  intExp : ℚ
deriving Repr, DecidableEq

/-- Embeds the `deterioration_count` accumulation of
`run_thesis_engine` (src/engines/thesis.py lines 136-210): revenue +1,
net profit +1, margins +1 (non-financials), ROE +1, capital erosion +2
(financials), leverage +1 and interest coverage +2 / +0.5
(non-financials). -/
def deterioration_count (s : ThesisSignals) : ℚ :=
  (if s.revenueTrend = "Deteriorating" then 1 else 0)
  + (if s.sector ≠ "Financials" ∧ s.marginTrend = "Deteriorating" then 1 else 0)
  + (if s.incomeTrend = "Deteriorating" then 1 else 0)
  + (if s.roeTrend = "Deteriorating" then 1 else 0)
  + (if s.sector = "Financials" then
       (if s.equityTrend = "Deteriorating" then 2 else 0)
     else
       (if s.latestDebt > 0 ∧ s.latestEquity > 0 ∧ s.latestDebt > s.latestEquity then 1 else 0)
       + (if s.hasCoverageData ∧ |s.intExp| > 0 then
            (if s.opInc / |s.intExp| < 3/2 then 2
             else if s.opInc / |s.intExp| < 3 then 1/2 else 0)
          else 0))

/-- Embeds the final scoring logic of `run_thesis_engine`
(src/engines/thesis.py lines 212-219). -/
def thesisStatusOfScore (score : ℚ) : String :=
  if score ≥ 3 then "Broken"
  else if score ≥ 1 then "Weakening"
  else "Intact"

/-- Status of a holding as computed by the thesis engine from its
accumulated deterioration score. -/
def run_thesis_status (s : ThesisSignals) : String :=
  thesisStatusOfScore (deterioration_count s)

/-- Modelled from the spec wording of claim C2 (not from the source):
status thresholds at 2.5 and 1.0. -/
def specThesisStatusOfScore (score : ℚ) : String :=
  if score ≥ 5/2 then "Broken"
  else if score ≥ 1 then "Weakening"
  else "Intact"

/-- Three consecutive periods in monotonic decline (newest first), the
second trigger named by the spec wording of claim C5. -/
def threeConsecutiveDecline : List ℚ → Bool
  | a :: b :: c :: _ => if a < b ∧ b < c then true else false
  | _ => false

/-- Modelled from the spec wording of claim C5 (not from the source):
Deteriorating on a >10% drop or three consecutive declining periods,
Improving when latest exceeds prior, else Stable. -/
def specTrend : List ℚ → String
  | l@(latest :: previous :: _) =>
      if latest < previous * (9/10) ∨ threeConsecutiveDecline l then "Deteriorating"
      else if latest > previous then "Improving"
      else "Stable"
  | _ => "Unknown"

/-! ## Opportunity-cost engine (src/engines/opportunity_cost.py) -/

def W_THESIS : ℚ := 45/100
def W_MOMENTUM : ℚ := 20/100
def W_VALUATION : ℚ := 20/100
def W_RISK : ℚ := 15/100

/-- Embeds `THESIS_PENALTY.get(thesis_status, 0)`
(src/engines/opportunity_cost.py lines 11 and 190). -/
def THESIS_PENALTY (status : String) : ℚ :=
  if status = "Intact" then 0
  else if status = "Weakening" then 40
  else if status = "Broken" then 100
  else 0

/-- Embeds `get_momentum_score` (src/engines/opportunity_cost.py lines
64-86).  `closes` is the daily close series, oldest first, so
`iloc[-1]` is the last element and the rolling means are over the last
50 and 200 entries. -/
def get_momentum_score (closes : List ℚ) : ℚ :=
  if closes.length < 200 then 50
  else
    let current := closes.getLastD 0
    let ma50 := listMean (closes.drop (closes.length - 50))
    let ma200 := listMean (closes.drop (closes.length - 200))
    let score : ℚ := 50 + (if current > ma200 then 15 else -15)
      + (if current > ma50 then 10 else -10)
      + (if ma50 > ma200 then 5 else 0)
    max 0 (min 100 score)

/-- Embeds the capital-drag computation of
`run_opportunity_cost_engine` (src/engines/opportunity_cost.py lines
184-195): a Broken thesis forces 100, otherwise the weighted blend is
capped at 100 and rounded to one decimal. -/
def capital_drag_score (thesis_status : String) (val_stress risk_score mom_score : ℚ) : ℚ :=
  if thesis_status = "Broken" then 100
  else
    let risk_norm := min (risk_score * 5) 100
    let mom_drag := 100 - mom_score
    round1 (min (THESIS_PENALTY thesis_status * W_THESIS
                 + val_stress * W_VALUATION
                 + risk_norm * W_RISK
                 + mom_drag * W_MOMENTUM) 100)

/-- Modelled from the spec wording of claim C3 (not from the source):
the weighted blend of thesis penalty, valuation stress, normalized
risk contribution and momentum drag, capped at 100. -/
def specDragBlend (penalty val_stress risk_score mom_score : ℚ) : ℚ :=
  min (penalty * (45/100) + val_stress * (20/100)
       + (min (risk_score * 5) 100) * (15/100)
       + (100 - mom_score) * (20/100)) 100

/-- The rationale strings returned by `evaluate_premium_switch`, one
constructor per `return` site (src/engines/opportunity_cost.py lines
113, 147, 153, 158 and 161). -/
inductive SwitchRationale where
  | safetySwitch
  | strategicUpgrade
  | valuationArbitrage
  | momentumFlip
  | qualityUpgrade
deriving Repr, DecidableEq

/-- Python's `value or default` for optional metrics: `None` and `0`
are both replaced by the default (src/engines/opportunity_cost.py
lines 100-107). -/
def orFalsy (v : Option ℚ) (d : ℚ) : ℚ :=
  match v with
  | none => d
  | some x => if x = 0 then d else x

/-- Embeds `evaluate_premium_switch` (src/engines/opportunity_cost.py
lines 88-161).  The raw metric fields come from the market-data info
dicts; `h_mom` and `c_mom` are the momentum scores the function
computes from the two price histories at lines 124-125. -/
def evaluate_premium_switch
    (h_roe_raw c_roe_raw h_pe_raw c_pe_raw h_peg_raw c_peg_raw : Option ℚ)
    (h_mom c_mom : ℚ) (is_emergency : Bool) : Option SwitchRationale :=
  let h_roe := orFalsy h_roe_raw (1/10)
  let c_roe := orFalsy c_roe_raw (1/10)
  let h_pe := orFalsy h_pe_raw 100
  let c_pe := orFalsy c_pe_raw 100
  let h_peg := orFalsy h_peg_raw 5
  let c_peg := orFalsy c_peg_raw 5
  if is_emergency = true ∧ c_roe > 12/100 then some .safetySwitch
  else
    let quality_pass := c_roe > h_roe * (11/10) ∨ (h_mom < 30 ∧ c_mom > 60)
    if ¬ quality_pass then none
    else
      let value_pass := c_pe < h_pe ∨ c_peg < 3/2 ∨ is_emergency = true
      if ¬ value_pass then none
      else if c_mom < 40 then none
      else if c_peg < h_peg ∧ c_roe > h_roe then some .strategicUpgrade
      else if c_pe < h_pe * (8/10) then some .valuationArbitrage
      else if h_mom < 30 ∧ c_mom > 60 then some .momentumFlip
      else some .qualityUpgrade

/-! ## Valuation engine (src/engines/valuation.py) -/

/-- Embeds the per-holding classification of `run_valuation_engine`
(src/engines/valuation.py lines 103-153): status and stress score from
the primary metric, the cached sector benchmark and the PEG ratio.
A falsy (zero) benchmark makes the ratio default to 1. -/
def run_valuation_verdict (primary_val : Option ℚ) (benchmark_val : ℚ)
    (peg : Option ℚ) : String × ℚ :=
  match primary_val with
  | none => ("Insufficient Data", 0)
  | some pv =>
    let ratio := if benchmark_val ≠ 0 then pv / benchmark_val else 1
    if ratio < 3/4 then ("Undervalued", 30)
    else if 3/4 ≤ ratio ∧ ratio ≤ 5/4 then ("Fair Value", 50)
    else
      if (match peg with
          | some p => if 0 < p ∧ p < 3/2 then true else false
          | none => false) = true then
        ("Justified Premium", 60)
      else if ratio > 5/2 then ("Highly Stretched", 90)
      else if ratio > 3/2 then ("Overvalued", 75)
      else ("Premium", 65)

/-! ## Risk engine (src/engines/risk.py) -/

/-- Embeds the per-holding risk-tag logic of `run_risk_engine`
(src/engines/risk.py lines 119-131). -/
def risk_tag (size_cat : String) (weight_pct vol beta : ℚ) : String :=
  if size_cat = "Small Cap" ∧ weight_pct > 7 then "Critical (Liquidity)"
  else if vol > 4/10 then "High Volatility"
  else if beta > 3/2 ∧ weight_pct > 5 then "Aggressive Exposure"
  else if size_cat = "Small Cap" then "Moderate (Small Cap)"
  else "Low"

/-- Thresholds dict `RISK_THRESHOLDS` (src/utils/constants.py lines
187-191).  Only `single_stock_high` is ever read by the risk engine. -/
def RISK_THRESHOLDS_single_stock_high : ℚ := 15

def RISK_THRESHOLDS_top3_high : ℚ := 45

/-- The portfolio-level flags built by `run_risk_engine`
(src/engines/risk.py lines 148-161), one constructor per append site:
the single-stock concentration alert (line 152), the small-cap
liquidity alert (line 156) and the sector-bias alert (line 161).  The
payload is the numeric value interpolated into the flag string. -/
inductive RiskFlag where
  | concentrationSingle (pct : ℚ)
  | liquiditySmallCap (pct : ℚ)
  | sectorBias (sector : String) (pct : ℚ)
deriving Repr, DecidableEq

/-- The descending weight sort of src/engines/risk.py line 144. -/
def sortedWeights (weights : List ℚ) : List ℚ :=
  List.insertionSort (· ≥ ·) weights

/-- Largest holding weight (`sorted_weights[0] if sorted_weights else
0`, src/engines/risk.py line 145). -/
def top1Pct (weights : List ℚ) : ℚ := (sortedWeights weights).headD 0

/-- Aggregate weight of the top-3 holdings (`sum(sorted_weights[:3])`,
src/engines/risk.py line 146). -/
def top3Pct (weights : List ℚ) : ℚ := ((sortedWeights weights).take 3).sum

/-- Embeds the concentration-check block of `run_risk_engine`
(src/engines/risk.py lines 142-161): flags for a single stock above
the `single_stock_high` threshold, small-cap exposure above 35% and
any non-ETF sector above 35%. -/
def concentration_flags (weights : List ℚ) (smallCapPct : ℚ)
    (sectorExposure : List (String × ℚ)) : List RiskFlag :=
  (if top1Pct weights > RISK_THRESHOLDS_single_stock_high
   then [RiskFlag.concentrationSingle (top1Pct weights)] else [])
  ++ (if smallCapPct > 35 then [RiskFlag.liquiditySmallCap smallCapPct] else [])
  ++ sectorExposure.filterMap
       (fun p => if p.2 > 35 ∧ p.1 ≠ "ETF" then some (RiskFlag.sectorBias p.1 p.2) else none)

/-! ## Decision engine (src/synthesis/decision_engine.py) -/

/-- A news event as consumed by the decision engine
(src/synthesis/decision_engine.py lines 70 and 83-86). -/
structure NewsEvent where
  impact : String
  headline : String
deriving Repr, DecidableEq

/-- Verdict for one holding (src/synthesis/decision_engine.py lines
148-156, without the meta block). -/
structure Decision where
  action : String
  reason : String
  urgency : String
deriving Repr, DecidableEq

/-- The decision hierarchy below the event veto
(src/synthesis/decision_engine.py lines 88-156): thesis failure, risk
breaches, capital efficiency, valuation/momentum, falling knife, watch
and the HOLD default.  `candidate` is the first replacement
candidate's symbol when `replacement_candidates` is non-null. -/
def decideNoEvent (thesis_status : String) (val_stress drag_score mom_score : ℚ)
    (riskTag : String) (candidate : Option String) : Decision :=
  if thesis_status = "Broken" then
    ⟨"EXIT", "Thesis Broken: Structural deterioration in fundamentals.", "Critical"⟩
  else if riskTag = "Critical (Liquidity)" then
    ⟨"TRIM", "Liquidity Trap: Position size dangerous for Small Cap volume.", "High"⟩
  else if riskTag = "Critical (Volatility)" then
    if mom_score > 60 then
      ⟨"TRIM", "Risk Control: Trimming overweight position in volatile stock.", "Medium"⟩
    else
      ⟨"EXIT", "Volatility Risk: High Beta without momentum support.", "High"⟩
  else if drag_score ≥ 85 then
    match candidate with
    | some alt =>
        ⟨"REPLACE", "Dead Capital: Switch to " ++ alt ++ " for better ROE/Efficiency.", "High"⟩
    | none =>
        ⟨"EXIT", "Dead Capital: Stock is efficiently dragging portfolio performance.", "Medium"⟩
  else if val_stress ≥ 90 then
    if mom_score > 75 then
      ⟨"TRIM", "Profit Booking: Valuation stretched, but momentum is strong. Trim to lock gains.", "Medium"⟩
    else
      ⟨"EXIT", "Valuation Bubble: Price disconnected from reality with fading momentum.", "High"⟩
  else if thesis_status = "Weakening" ∧ mom_score < 40 then
    ⟨"EXIT", "Falling Knife: Weakening fundamentals + Downtrend.", "High"⟩
  else if val_stress ≥ 75 ∧ thesis_status = "Intact" then
    ⟨"WATCH", "Monitor: Premium valuation, but quality is intact.", "Low"⟩
  else
    ⟨"HOLD", "Thesis intact, metrics within tolerance.", "Low"⟩

/-- Embeds the full per-holding decision hierarchy of
`run_decision_engine` for an equity holding
(src/synthesis/decision_engine.py lines 79-156), starting with the
event veto layer at lines 81-86. -/
def decideHolding (thesis_status : String) (val_stress drag_score mom_score : ℚ)
    (riskTag : String) (event : Option NewsEvent) (candidate : Option String) : Decision :=
  match event with
  | some e =>
      if e.impact = "Governance Risk" ∨ e.impact = "Regulatory Hit" then
        ⟨"EXIT", "CRITICAL EVENT: " ++ e.headline ++ " (" ++ e.impact ++ ")", "Critical"⟩
      else decideNoEvent thesis_status val_stress drag_score mom_score riskTag candidate
  | none => decideNoEvent thesis_status val_stress drag_score mom_score riskTag candidate

/-- Embeds `net_action_bias` of the portfolio-level result
(src/synthesis/decision_engine.py line 200). -/
def net_action_bias (portfolio_actions : List Decision) : String :=
  if portfolio_actions.any (fun a => a.action == "EXIT") then "De-Risk" else "Optimize"

/-- Embeds `do_nothing` of the portfolio-level result
(src/synthesis/decision_engine.py line 199). -/
def do_nothing (portfolio_actions : List Decision) : Bool :=
  portfolio_actions.isEmpty

/-! ## Helper lemmas -/

/-- The momentum score only ever takes one of eight values: the
neutral 50, or the eight combinations of the ±15 / ±10 / +5 steps
applied to 50 (the clamp to [0, 100] never binds). -/
lemma get_momentum_score_valueSet (l : List ℚ) :
    get_momentum_score l ∈ ([25, 30, 45, 50, 55, 60, 75, 80] : List ℚ) := by
  simp only [get_momentum_score]
  split_ifs <;> norm_num [max_def, min_def]

/-- A holding whose risk tag is not "Critical (Volatility)" can never
receive either outcome of the decision engine's volatility branch. -/
lemma decideHolding_no_volatility_outcome (thesis : String) (vs drag mom : ℚ)
    (rt : String) (ev : Option NewsEvent) (cand : Option String)
    (h : rt ≠ "Critical (Volatility)") :
    decideHolding thesis vs drag mom rt ev cand
      ≠ ⟨"TRIM", "Risk Control: Trimming overweight position in volatile stock.", "Medium"⟩
    ∧ decideHolding thesis vs drag mom rt ev cand
      ≠ ⟨"EXIT", "Volatility Risk: High Beta without momentum support.", "High"⟩ := by
  have hcore : ∀ c : Option String, decideNoEvent thesis vs drag mom rt c
      ≠ ⟨"TRIM", "Risk Control: Trimming overweight position in volatile stock.", "Medium"⟩
    ∧ decideNoEvent thesis vs drag mom rt c
      ≠ ⟨"EXIT", "Volatility Risk: High Beta without momentum support.", "High"⟩ := by
    intro c
    rcases c with _ | alt <;>
      unfold decideNoEvent <;>
      split_ifs <;>
      first
        | exact (h ‹rt = "Critical (Volatility)"›).elim
        | exact ⟨by simp [Decision.mk.injEq], by simp [Decision.mk.injEq]⟩
  rcases ev with _ | e
  · exact hcore cand
  · simp only [decideHolding]
    split_ifs
    · exact ⟨by simp [Decision.mk.injEq], by simp [Decision.mk.injEq]⟩
    · exact hcore cand

/-! ## Claim theorems -/

/-- C1: for every equity holding with thesis status "Broken", the
decision engine's verdict is action EXIT with urgency Critical,
whatever the valuation stress, capital drag, momentum, risk tag,
replacement candidate and news event are (an event veto also yields
EXIT / Critical). -/
theorem broken_thesis_always_exit_critical (vs drag mom : ℚ) (rt : String)
    (ev : Option NewsEvent) (cand : Option String) :
    (decideHolding "Broken" vs drag mom rt ev cand).action = "EXIT"
    ∧ (decideHolding "Broken" vs drag mom rt ev cand).urgency = "Critical" := by
  rcases ev with _ | e
  · simp [decideHolding, decideNoEvent]
  · simp only [decideHolding]
    split_ifs
    · exact ⟨rfl, rfl⟩
    · simp [decideNoEvent]

/-- C2 counterexample: a non-financial holding with deteriorating
revenue and net income and a weak (but not critical) interest coverage
of 2.0x accumulates a deterioration score of exactly 2.5, and the
thesis engine labels it "Weakening", not "Broken" as the claimed 2.5
threshold would require. -/
theorem thesis_score_2p5_weakening_counterexample :
    deterioration_count ⟨"IT", "Deteriorating", "Deteriorating", "Stable", "Stable",
      "Stable", 0, 0, true, 2, 1⟩ = 5/2
    ∧ run_thesis_status ⟨"IT", "Deteriorating", "Deteriorating", "Stable", "Stable",
      "Stable", 0, 0, true, 2, 1⟩ = "Weakening"
    ∧ specThesisStatusOfScore (5/2) = "Broken"
    ∧ ("Weakening" : String) ≠ "Broken" := by
  have hc : deterioration_count ⟨"IT", "Deteriorating", "Deteriorating", "Stable", "Stable",
      "Stable", 0, 0, true, 2, 1⟩ = 5/2 := by
    simp [deterioration_count]
    norm_num
  refine ⟨hc, ?_, ?_, by decide⟩
  · rw [run_thesis_status, hc, thesisStatusOfScore]
    rw [if_neg (by norm_num), if_pos (by norm_num)]
  · rw [specThesisStatusOfScore, if_pos (by norm_num)]

/-- C2 amended: the thesis engine assigns "Broken" exactly when the
accumulated deterioration score is at least 3 (not 2.5), "Weakening"
exactly when the score is at least 1 but below 3, and "Intact"
exactly when it is below 1. -/
theorem thesis_status_thresholds (s : ThesisSignals) :
    (run_thesis_status s = "Broken" ↔ deterioration_count s ≥ 3)
    ∧ (run_thesis_status s = "Weakening" ↔ 1 ≤ deterioration_count s ∧ deterioration_count s < 3)
    ∧ (run_thesis_status s = "Intact" ↔ deterioration_count s < 1) := by
  unfold run_thesis_status thesisStatusOfScore
  split_ifs with h1 h2 <;> refine ⟨⟨?_, ?_⟩, ⟨?_, ?_⟩, ⟨?_, ?_⟩⟩ <;>
    simp_all <;> first | linarith | (intro h; linarith)

/-- C5 counterexample: for the two-period series (latest 97, prior
100) the latest value dropped only 3% from the prior period and no
three-period decline exists, so the claim's rule yields "Stable",
but `evaluate_trend` returns "Deteriorating". -/
theorem evaluate_trend_counterexample :
    evaluate_trend [97, 100] = "Deteriorating"
    ∧ specTrend [97, 100] = "Stable"
    ∧ ("Deteriorating" : String) ≠ "Stable" := by
  refine ⟨?_, ?_, by decide⟩
  · norm_num [evaluate_trend]
  · norm_num [specTrend, threeConsecutiveDecline]

/-- C5 amended: on any series with at least two periods,
`evaluate_trend` returns "Improving" exactly when the latest value
exceeds the prior one, "Deteriorating" exactly when the latest value
is below the prior one (by any amount, not only a >10% drop), and
"Stable" exactly when they are equal; no three-period rule exists. -/
theorem evaluate_trend_sign_only (latest previous : ℚ) (rest : List ℚ) :
    (evaluate_trend (latest :: previous :: rest) = "Improving" ↔ latest > previous)
    ∧ (evaluate_trend (latest :: previous :: rest) = "Deteriorating" ↔ latest < previous)
    ∧ (evaluate_trend (latest :: previous :: rest) = "Stable" ↔ latest = previous) := by
  simp only [evaluate_trend]
  split_ifs with h1 h2 <;> refine ⟨⟨?_, ?_⟩, ⟨?_, ?_⟩, ⟨?_, ?_⟩⟩ <;>
    simp_all <;> first | linarith | (intro h; linarith)

/-- C3 counterexample: for an Intact holding with valuation stress 50,
risk-contribution score 1.23 and momentum 50, the claimed blend is
20.9225 but the engine's capital drag score is its one-decimal
rounding 20.9, so the claimed exact equality fails. -/
theorem capital_drag_rounding_counterexample :
    capital_drag_score "Intact" 50 (123/100) 50 = 209/10
    ∧ specDragBlend (THESIS_PENALTY "Intact") 50 (123/100) 50 = 8369/400
    ∧ (209/10 : ℚ) ≠ 8369/400 := by
  have hpen : THESIS_PENALTY "Intact" = 0 := by simp [THESIS_PENALTY]
  refine ⟨?_, ?_, by norm_num⟩
  · simp only [capital_drag_score]
    rw [if_neg (by simp), hpen]
    norm_num [W_THESIS, W_VALUATION, W_RISK, W_MOMENTUM, min_def, round1, pyRound]
  · rw [hpen]
    norm_num [specDragBlend, min_def]

/-- C3 amended: for a non-Broken equity holding the capital drag score
equals the claimed weighted blend (thesis penalty x 0.45 + valuation
stress x 0.20 + normalized risk contribution capped at 100 x 0.15 +
momentum drag x 0.20, capped at 100) rounded to one decimal place; for
a Broken holding it is exactly 100 regardless of the other inputs. -/
theorem capital_drag_blend_rounded (status : String) (vs rs ms : ℚ) :
    (status ≠ "Broken" →
      capital_drag_score status vs rs ms
        = round1 (specDragBlend (THESIS_PENALTY status) vs rs ms))
    ∧ (status = "Broken" → capital_drag_score status vs rs ms = 100) := by
  constructor
  · intro h
    simp only [capital_drag_score, specDragBlend, W_THESIS, W_VALUATION, W_RISK, W_MOMENTUM]
    rw [if_neg h]
  · intro h
    simp only [capital_drag_score]
    rw [if_pos h]

/-- Witness for the amended C3 theorem at concrete inputs. -/
theorem capital_drag_blend_rounded_witness :
    capital_drag_score "Intact" 50 1 50 = round1 (specDragBlend (THESIS_PENALTY "Intact") 50 1 50)
    ∧ capital_drag_score "Broken" 50 1 50 = 100 :=
  ⟨(capital_drag_blend_rounded "Intact" 50 1 50).1 (by decide),
   (capital_drag_blend_rounded "Broken" 50 1 50).2 rfl⟩

/-- C4 counterexample: with an empty surfaced action list, `do_nothing`
is true but the bias the engine reports is "Optimize", not "Hold" as
claimed. -/
theorem empty_actions_bias_counterexample :
    net_action_bias [] = "Optimize"
    ∧ net_action_bias [] ≠ "Hold"
    ∧ do_nothing [] = true := by decide

/-- C4 amended: the bias is "De-Risk" if at least one surfaced action
is EXIT and "Optimize" otherwise; when the surfaced list is empty the
do_nothing flag is true and the bias is "Optimize" (not "Hold"). -/
theorem net_action_bias_rules (l : List Decision) :
    ((∃ a ∈ l, a.action = "EXIT") → net_action_bias l = "De-Risk")
    ∧ ((¬ ∃ a ∈ l, a.action = "EXIT") → net_action_bias l = "Optimize")
    ∧ (l = [] → net_action_bias l = "Optimize" ∧ do_nothing l = true) := by
  refine ⟨?_, ?_, ?_⟩
  · rintro ⟨a, ha, hact⟩
    simp only [net_action_bias]
    rw [if_pos]
    exact List.any_eq_true.mpr ⟨a, ha, by simp [hact]⟩
  · intro h
    simp only [net_action_bias]
    rw [if_neg]
    intro hany
    rcases List.any_eq_true.mp hany with ⟨a, ha, hbeq⟩
    exact h ⟨a, ha, by simpa using hbeq⟩
  · rintro rfl
    exact ⟨rfl, rfl⟩

/-- Witness for the amended C4 theorem at concrete inputs. -/
theorem net_action_bias_rules_witness :
    net_action_bias [⟨"EXIT", "Thesis Broken: Structural deterioration in fundamentals.", "Critical"⟩] = "De-Risk"
    ∧ net_action_bias [] = "Optimize" ∧ do_nothing [] = true :=
  ⟨(net_action_bias_rules _).1 ⟨_, List.mem_singleton.mpr rfl, rfl⟩,
   (net_action_bias_rules []).2.2 rfl⟩

/-- C6 counterexample: for weights 16 / 15 / 15 the top-3 aggregate is
46%, above the 45% threshold, yet the only flag emitted is the
single-stock alert, and the flag list is identical to that of weights
16 / 1 / 1 whose top-3 aggregate is far below the threshold: no flag
is ever emitted for the top-3 condition. -/
theorem top3_concentration_no_flag_counterexample :
    concentration_flags [16, 15, 15] 0 [] = [RiskFlag.concentrationSingle 16]
    ∧ top3Pct [16, 15, 15] = 46
    ∧ RISK_THRESHOLDS_top3_high < 46
    ∧ concentration_flags [16, 15, 15] 0 [] = concentration_flags [16, 1, 1] 0 []
    ∧ top3Pct [16, 1, 1] = 18 := by
  have h1 : sortedWeights [16, 15, 15] = [16, 15, 15] := by
    norm_num [sortedWeights, List.insertionSort, List.orderedInsert]
  have h2 : sortedWeights [16, 1, 1] = [16, 1, 1] := by
    norm_num [sortedWeights, List.insertionSort, List.orderedInsert]
  refine ⟨?_, ?_, ?_, ?_, ?_⟩
  · norm_num [concentration_flags, top1Pct, h1, RISK_THRESHOLDS_single_stock_high]
  · norm_num [top3Pct, h1]
  · norm_num [RISK_THRESHOLDS_top3_high]
  · norm_num [concentration_flags, top1Pct, h1, h2, RISK_THRESHOLDS_single_stock_high]
  · norm_num [top3Pct, h2]

/-- C6 amended: the risk engine emits the single-stock concentration
flag exactly when the largest holding's weight exceeds the
`single_stock_high` threshold (default 15%); the top-3 aggregate never
triggers any flag — the flag list depends on the weights only through
the largest weight (the `top3_high` threshold of 45% is defined but
unused). -/
theorem concentration_flag_single_stock_only (w : List ℚ) (scp : ℚ)
    (se : List (String × ℚ)) :
    (RiskFlag.concentrationSingle (top1Pct w) ∈ concentration_flags w scp se
      ↔ top1Pct w > RISK_THRESHOLDS_single_stock_high)
    ∧ (∀ w', top1Pct w' = top1Pct w →
        concentration_flags w' scp se = concentration_flags w scp se) := by
  constructor
  · constructor
    · intro hmem
      by_contra h
      unfold concentration_flags at hmem
      rw [if_neg h] at hmem
      simp only [List.nil_append, List.mem_append, List.mem_filterMap] at hmem
      rcases hmem with h1 | ⟨p, _, hp⟩
      · split_ifs at h1 <;> simp_all
      · split_ifs at hp <;> simp_all
    · intro h
      unfold concentration_flags
      rw [if_pos h]
      simp
  · intro w' hw
    unfold concentration_flags
    rw [hw]

/-- Witness for the amended C6 theorem at concrete inputs. -/
theorem concentration_flag_single_stock_only_witness :
    RiskFlag.concentrationSingle (top1Pct [16, 15, 15]) ∈ concentration_flags [16, 15, 15] 0 []
    ∧ concentration_flags [16, 1, 1] 0 [] = concentration_flags [16, 15, 15] 0 [] := by
  constructor
  · exact (concentration_flag_single_stock_only [16, 15, 15] 0 []).1.mpr
      (by norm_num [top1Pct, sortedWeights, List.insertionSort, List.orderedInsert,
        RISK_THRESHOLDS_single_stock_high])
  · exact (concentration_flag_single_stock_only [16, 15, 15] 0 []).2 [16, 1, 1]
      (by norm_num [top1Pct, sortedWeights, List.insertionSort, List.orderedInsert])

/-- Mean of a constant list. -/
lemma listMean_replicate (n : ℕ) (hn : n ≠ 0) (a : ℚ) :
    listMean (List.replicate n a) = a := by
  rw [listMean, List.sum_replicate, nsmul_eq_mul, List.length_replicate]
  exact mul_div_cancel_left₀ a (Nat.cast_ne_zero.mpr hn)

/-- A flat 200-day price history scores the minimum momentum of 25. -/
lemma get_momentum_score_flat :
    get_momentum_score (List.replicate 200 (1:ℚ)) = 25 := by
  have hlen : (List.replicate 200 (1:ℚ)).length = 200 := List.length_replicate 200 1
  simp only [get_momentum_score, hlen]
  rw [if_neg (by norm_num)]
  have hlast : (List.replicate 200 (1:ℚ)).getLastD 0 = 1 := by
    rw [List.getLastD_eq_getLast?, List.getLast?_replicate]
    norm_num
  have h50 : (List.replicate 200 (1:ℚ)).drop (200 - 50) = List.replicate 50 1 := by
    rw [List.drop_replicate]
  have h200 : (List.replicate 200 (1:ℚ)).drop (200 - 200) = List.replicate 200 1 := by
    rw [List.drop_replicate]
  rw [hlast, h50, h200, listMean_replicate 50 (by norm_num) 1,
    listMean_replicate 200 (by norm_num) 1]
  norm_num [max_def, min_def]

/-- A 200-day history ending in a large spike above both moving
averages, with the 50-day MA above the 200-day MA, scores the maximum
momentum of 80. -/
lemma get_momentum_score_spike :
    get_momentum_score (List.replicate 199 (1:ℚ) ++ [1000]) = 80 := by
  have hlen : (List.replicate 199 (1:ℚ) ++ [1000]).length = 200 := by
    rw [List.length_append, List.length_replicate, List.length_singleton]
  simp only [get_momentum_score, hlen]
  rw [if_neg (by norm_num)]
  have hlast : (List.replicate 199 (1:ℚ) ++ [1000]).getLastD 0 = 1000 := by
    rw [List.getLastD_concat]
  have h50 : (List.replicate 199 (1:ℚ) ++ [1000]).drop (200 - 50)
      = List.replicate 49 1 ++ [1000] := by
    rw [List.drop_append_of_le_length (by rw [List.length_replicate]; norm_num),
      List.drop_replicate]
  have h200 : (List.replicate 199 (1:ℚ) ++ [1000]).drop (200 - 200)
      = List.replicate 199 1 ++ [1000] := by
    norm_num
  have hm50 : listMean (List.replicate 49 (1:ℚ) ++ [1000]) = 1049/50 := by
    rw [listMean, List.sum_append, List.sum_replicate, nsmul_eq_mul, List.sum_singleton,
      List.length_append, List.length_replicate, List.length_singleton]
    norm_num
  have hm200 : listMean (List.replicate 199 (1:ℚ) ++ [1000]) = 1199/200 := by
    rw [listMean, List.sum_append, List.sum_replicate, nsmul_eq_mul, List.sum_singleton,
      List.length_append, List.length_replicate, List.length_singleton]
    norm_num
  rw [hlast, h50, h200, hm50, hm200]
  norm_num [max_def, min_def]

/-- C7 counterexample: in emergency mode (Replace bucket) a candidate
with ROE 15% is surfaced as a Safety Switch even though its own
momentum score — computed from a flat 200-day price history — is 25,
far below the claimed floor of 40. -/
theorem emergency_switch_low_momentum_counterexample :
    get_momentum_score (List.replicate 200 (1:ℚ)) = 25
    ∧ evaluate_premium_switch none (some (15/100)) none none none none 50
        (get_momentum_score (List.replicate 200 (1:ℚ))) true = some SwitchRationale.safetySwitch
    ∧ ¬((25:ℚ) > 40) := by
  refine ⟨get_momentum_score_flat, ?_, by norm_num⟩
  rw [get_momentum_score_flat]
  norm_num [evaluate_premium_switch, orFalsy]

/-- C7 amended: a candidate surfaced by `evaluate_premium_switch`
through the standard path — that is, whenever the emergency
early-return (emergency mode with candidate ROE above 12%) does not
fire — always has momentum score above 40; the emergency early-return,
however, happens before the momentum check, so a Replace-bucket
candidate with ROE above 12% can be surfaced with arbitrarily low
momentum. -/
theorem standard_path_candidate_momentum_exceeds_40
    (h_roe c_roe h_pe c_pe h_peg c_peg : Option ℚ) (h_mom : ℚ) (ch : List ℚ)
    (em : Bool) (r : SwitchRationale)
    (hnoem : ¬(em = true ∧ orFalsy c_roe (1/10) > 12/100))
    (hs : evaluate_premium_switch h_roe c_roe h_pe c_pe h_peg c_peg h_mom
            (get_momentum_score ch) em = some r) :
    get_momentum_score ch > 40 := by
  by_contra hle
  push_neg at hle
  have hlt : get_momentum_score ch < 40 := by
    have hmem := get_momentum_score_valueSet ch
    simp only [List.mem_cons, List.not_mem_nil, or_false] at hmem
    revert hle
    rcases hmem with h|h|h|h|h|h|h|h <;> rw [h] <;> norm_num
  simp only [evaluate_premium_switch] at hs
  rw [if_neg hnoem] at hs
  split_ifs at hs <;> simp_all

/-- Witness for the amended C7 theorem at concrete inputs. -/
theorem standard_path_candidate_momentum_exceeds_40_witness :
    evaluate_premium_switch none (some (2/10)) none (some 10) none none 50
      (get_momentum_score ([] : List ℚ)) false = some SwitchRationale.valuationArbitrage
    ∧ get_momentum_score ([] : List ℚ) > 40 := by
  have hmom : get_momentum_score ([] : List ℚ) = 50 := by
    simp [get_momentum_score]
  have hs : evaluate_premium_switch none (some (2/10)) none (some 10) none none 50
      (get_momentum_score ([] : List ℚ)) false = some SwitchRationale.valuationArbitrage := by
    rw [hmom]
    norm_num [evaluate_premium_switch, orFalsy]
  exact ⟨hs, standard_path_candidate_momentum_exceeds_40 none (some (2/10)) none (some 10)
    none none 50 [] false SwitchRationale.valuationArbitrage (by simp) hs⟩

/-- C8: whenever the primary metric over the sector benchmark exceeds
1.25 and the PEG ratio is present with 0 < PEG < 1.5, the valuation
engine classifies the holding "Justified Premium" with stress score
60; in particular P/E 40 against a captain median of 20 with PEG 0.9
gives exactly that verdict. -/
theorem justified_premium_rule :
    (∀ pv bench p : ℚ, bench ≠ 0 → pv / bench > 5/4 → 0 < p → p < 3/2 →
      run_valuation_verdict (some pv) bench (some p) = ("Justified Premium", 60))
    ∧ run_valuation_verdict (some 40) 20 (some (9/10)) = ("Justified Premium", 60) := by
  have hmain : ∀ pv bench p : ℚ, bench ≠ 0 → pv / bench > 5/4 → 0 < p → p < 3/2 →
      run_valuation_verdict (some pv) bench (some p) = ("Justified Premium", 60) := by
    intro pv bench p hb hr hp1 hp2
    have h1 : ¬(pv / bench < 3/4) := by linarith
    have h2 : ¬(3/4 ≤ pv / bench ∧ pv / bench ≤ 5/4) := by
      rintro ⟨_, hle⟩
      linarith
    have h3 : (if 0 < p ∧ p < 3/2 then true else false) = true := by
      rw [if_pos ⟨hp1, hp2⟩]
    simp only [run_valuation_verdict]
    rw [if_pos hb, if_neg h1, if_neg h2, if_pos h3]
  exact ⟨hmain, hmain 40 20 (9/10) (by norm_num) (by norm_num) (by norm_num) (by norm_num)⟩

/-- Witness for the C8 theorem at the scenario's concrete inputs. -/
theorem justified_premium_rule_witness :
    run_valuation_verdict (some 40) 20 (some (9/10)) = ("Justified Premium", 60) :=
  justified_premium_rule.1 40 20 (9/10) (by norm_num) (by norm_num) (by norm_num) (by norm_num)

/-- C9: every risk tag produced by the risk engine is one of the five
values "Critical (Liquidity)", "High Volatility", "Aggressive
Exposure", "Moderate (Small Cap)" or "Low" — never "Critical
(Volatility)" — so when the decision engine's risk input comes from
the risk engine, neither outcome of its "Critical (Volatility)" branch
can ever be produced. -/
theorem risk_tag_never_critical_volatility (size : String) (w vol beta : ℚ)
    (thesis : String) (vs drag mom : ℚ) (ev : Option NewsEvent) (cand : Option String) :
    risk_tag size w vol beta ∈ (["Critical (Liquidity)", "High Volatility",
        "Aggressive Exposure", "Moderate (Small Cap)", "Low"] : List String)
    ∧ risk_tag size w vol beta ≠ "Critical (Volatility)"
    ∧ decideHolding thesis vs drag mom (risk_tag size w vol beta) ev cand
        ≠ ⟨"TRIM", "Risk Control: Trimming overweight position in volatile stock.", "Medium"⟩
    ∧ decideHolding thesis vs drag mom (risk_tag size w vol beta) ev cand
        ≠ ⟨"EXIT", "Volatility Risk: High Beta without momentum support.", "High"⟩ := by
  have hne : risk_tag size w vol beta ≠ "Critical (Volatility)" := by
    unfold risk_tag
    split_ifs <;> simp
  have hmem : risk_tag size w vol beta ∈ (["Critical (Liquidity)", "High Volatility",
      "Aggressive Exposure", "Moderate (Small Cap)", "Low"] : List String) := by
    unfold risk_tag
    split_ifs <;> simp
  obtain ⟨hna, hnb⟩ :=
    decideHolding_no_volatility_outcome thesis vs drag mom _ ev cand hne
  exact ⟨hmem, hne, hna, hnb⟩

/-- C10: the momentum score always lies in [25, 80]; it is exactly 50
for histories shorter than 200 days; any score above 75 is exactly 80
(so the decision engine's "momentum > 75" test only fires at 80); and
the opportunity-cost engine's one-decimal rounding leaves the score
unchanged, so momentum_health never exceeds 80 either. -/
theorem momentum_score_bounded (l : List ℚ) :
    (25 ≤ get_momentum_score l ∧ get_momentum_score l ≤ 80)
    ∧ (l.length < 200 → get_momentum_score l = 50)
    ∧ (get_momentum_score l > 75 → get_momentum_score l = 80)
    ∧ round1 (get_momentum_score l) = get_momentum_score l := by
  have hmem := get_momentum_score_valueSet l
  simp only [List.mem_cons, List.not_mem_nil, or_false] at hmem
  have hshort : l.length < 200 → get_momentum_score l = 50 := by
    intro h
    simp only [get_momentum_score]
    rw [if_pos h]
  refine ⟨?_, hshort, ?_, ?_⟩
  · rcases hmem with h|h|h|h|h|h|h|h <;> rw [h] <;> exact ⟨by norm_num, by norm_num⟩
  · intro hgt
    rcases hmem with h|h|h|h|h|h|h|h <;> rw [h] at hgt ⊢ <;>
      first
        | rfl
        | exact absurd hgt (by norm_num)
  · rcases hmem with h|h|h|h|h|h|h|h <;> rw [h] <;> norm_num [round1, pyRound]

/-- Witness for the C10 theorem at concrete inputs: a short history
scores 50, and the spike history reaches the maximum 80, the only
score above 75. -/
theorem momentum_score_bounded_witness :
    get_momentum_score ([1, 2, 3] : List ℚ) = 50
    ∧ 25 ≤ get_momentum_score (List.replicate 199 (1:ℚ) ++ [1000])
    ∧ get_momentum_score (List.replicate 199 (1:ℚ) ++ [1000]) = 80 :=
  ⟨(momentum_score_bounded [1, 2, 3]).2.1 (by norm_num),
   (momentum_score_bounded (List.replicate 199 (1:ℚ) ++ [1000])).1.1,
   (momentum_score_bounded (List.replicate 199 (1:ℚ) ++ [1000])).2.2.1
     (by rw [get_momentum_score_spike]; norm_num)⟩

end PortfolioAI
